import Mathlib

/-
Verification of the daily-selection and history-fetch core of
`catsandbabies.py` (Cozy Smart Mama Hub).

The Python source is shallowly embedded below: pure helpers become Lean
functions over `Nat`, `String` and a small JSON value type; the one
side-effecting operation (the network fetch in
`try_fetch_wikimedia_onthisday`) is modelled by passing the observable
outcome of the request as an explicit argument. 32-bit machine arithmetic
from `hashlib` is modelled on `Nat` with explicit reduction mod 2^32.
-/

namespace CatsAndBabies

set_option maxRecDepth 8192

/-! ## 32-bit arithmetic (model of CPython's fixed-width hash arithmetic) -/

/-- Modulus of 32-bit words, 2^32. -/
def M32 : Nat := 4294967296

/-- Addition mod 2^32. -/
def add32 (a b : Nat) : Nat := (a + b) % M32

/-- Right rotation of a 32-bit word by `n` bits. -/
def rotr (n x : Nat) : Nat := x / 2 ^ n + x % 2 ^ n * 2 ^ (32 - n)

/-- Logical right shift by `n` bits. -/
def shr (n x : Nat) : Nat := x / 2 ^ n

/-- Bitwise complement within 32 bits. -/
def not32 (x : Nat) : Nat := Nat.xor x (M32 - 1)

/-! ## SHA-256 (model of `hashlib.sha256(...).hexdigest()`)

A direct executable transcription of FIPS 180-4, the function computed by
`hashlib.sha256`. -/

/-- SHA-256 Σ0. -/
def bsig0 (x : Nat) : Nat := Nat.xor (rotr 2 x) (Nat.xor (rotr 13 x) (rotr 22 x))

/-- SHA-256 Σ1. -/
def bsig1 (x : Nat) : Nat := Nat.xor (rotr 6 x) (Nat.xor (rotr 11 x) (rotr 25 x))

/-- SHA-256 σ0. -/
def ssig0 (x : Nat) : Nat := Nat.xor (rotr 7 x) (Nat.xor (rotr 18 x) (shr 3 x))

/-- SHA-256 σ1. -/
def ssig1 (x : Nat) : Nat := Nat.xor (rotr 17 x) (Nat.xor (rotr 19 x) (shr 10 x))

/-- SHA-256 choice function. -/
def ch (x y z : Nat) : Nat := Nat.xor (Nat.land x y) (Nat.land (not32 x) z)

/-- SHA-256 majority function. -/
def maj (x y z : Nat) : Nat :=
  Nat.xor (Nat.land x y) (Nat.xor (Nat.land x z) (Nat.land y z))

/-- The first 64 primes; their cube and square roots seed the SHA-256
constant tables (FIPS 180-4). -/
def sha2Primes : List Nat := [
  2, 3, 5, 7, 11, 13, 17, 19, 23, 29, 31, 37, 41, 43, 47, 53,
  59, 61, 67, 71, 73, 79, 83, 89, 97, 101, 103, 107, 109, 113, 127, 131,
  137, 139, 149, 151, 157, 163, 167, 173, 179, 181, 191, 193, 197, 199, 211, 223,
  227, 229, 233, 239, 241, 251, 257, 263, 269, 271, 277, 281, 283, 293, 307, 311]

/-- Integer cube root below `2^35` by bounded binary search (fuel-driven
so that the kernel can evaluate it). -/
def icbrtAux : Nat → Nat → Nat → Nat → Nat
  | 0, _, lo, _ => lo
  | fuel + 1, n, lo, hi =>
    if lo < hi then
      let mid := (lo + hi + 1) / 2
      if mid * mid * mid ≤ n then icbrtAux fuel n mid hi
      else icbrtAux fuel n lo (mid - 1)
    else lo

/-- Integer cube root (of the scaled primes below). -/
def icbrt (n : Nat) : Nat := icbrtAux 40 n 0 34359738368

/-- Integer square root below `2^35` by bounded binary search. -/
def isqrtAux : Nat → Nat → Nat → Nat → Nat
  | 0, _, lo, _ => lo
  | fuel + 1, n, lo, hi =>
    if lo < hi then
      let mid := (lo + hi + 1) / 2
      if mid * mid ≤ n then isqrtAux fuel n mid hi
      else isqrtAux fuel n lo (mid - 1)
    else lo

/-- Integer square root (of the scaled primes below). -/
def isqrt (n : Nat) : Nat := isqrtAux 40 n 0 34359738368

/-- The 64 SHA-256 round constants: the first 32 fractional bits of the
cube roots of the first 64 primes. -/
def roundK : List Nat := sha2Primes.map (fun p => icbrt (p * 2 ^ 96) % M32)

/-- The SHA-256 initial hash state: the first 32 fractional bits of the
square roots of the first 8 primes. -/
def initH : List Nat :=
  (sha2Primes.take 8).map (fun p => isqrt (p * 2 ^ 64) % M32)

/-- UTF-8 encoding of one character (model of `str.encode("utf-8")`,
byte by byte). -/
def utf8EncodeChar (c : Char) : List Nat :=
  let n := c.toNat
  if n < 128 then [n]
  else if n < 2048 then [192 + n / 64, 128 + n % 64]
  else if n < 65536 then [224 + n / 4096, 128 + n / 64 % 64, 128 + n % 64]
  else [240 + n / 262144, 128 + n / 4096 % 64, 128 + n / 64 % 64, 128 + n % 64]

/-- UTF-8 bytes of a string (model of `s.encode("utf-8")`). -/
def strBytes (s : String) : List Nat :=
  s.toList.foldr (fun c acc => utf8EncodeChar c ++ acc) []

/-- SHA-256 padding: append `0x80`, zeros to 56 mod 64 bytes, then the
message bit length as 8 big-endian bytes. -/
def padBytes (msg : List Nat) : List Nat :=
  let l := msg.length
  let k := (119 - l % 64) % 64
  let bitLen := 8 * l
  msg ++ [128] ++ List.replicate k 0 ++
    (List.range 8).map (fun i => bitLen / 2 ^ (8 * (7 - i)) % 256)

/-- Group bytes into big-endian 32-bit words. -/
def bytesToWords : List Nat → List Nat
  | a :: b :: c :: d :: rest => (((a * 256 + b) * 256 + c) * 256 + d) :: bytesToWords rest
  | _ => []

/-- Split a word list into blocks of 16 words (fuel-driven so that the
kernel can evaluate it). -/
def chunk16 : Nat → List Nat → List (List Nat)
  | 0, _ => []
  | _, [] => []
  | fuel + 1, ws => ws.take 16 :: chunk16 fuel (ws.drop 16)

/-- SHA-256 message schedule: extend 16 words to 64. -/
def schedule (ws : List Nat) : List Nat :=
  (List.range 48).foldl (fun w _ =>
    let n := w.length
    w ++ [add32 (add32 (ssig1 (w.getD (n - 2) 0)) (w.getD (n - 7) 0))
            (add32 (ssig0 (w.getD (n - 15) 0)) (w.getD (n - 16) 0))]) ws

/-- One SHA-256 compression step over a scheduled word/constant pair. -/
def compressStep (st : Nat × Nat × Nat × Nat × Nat × Nat × Nat × Nat)
    (wk : Nat × Nat) : Nat × Nat × Nat × Nat × Nat × Nat × Nat × Nat :=
  let (a, b, c, d, e, f, g, h) := st
  let t1 := add32 h (add32 (bsig1 e) (add32 (ch e f g) (add32 wk.2 wk.1)))
  let t2 := add32 (bsig0 a) (maj a b c)
  (add32 t1 t2, a, b, c, add32 d t1, e, f, g)

/-- SHA-256 compression of one 16-word block into the running state. -/
def compressBlock (hst : List Nat) (block : List Nat) : List Nat :=
  let w := schedule block
  let st0 := (hst.getD 0 0, hst.getD 1 0, hst.getD 2 0, hst.getD 3 0,
              hst.getD 4 0, hst.getD 5 0, hst.getD 6 0, hst.getD 7 0)
  let st := (w.zip roundK).foldl compressStep st0
  let (a, b, c, d, e, f, g, h) := st
  [add32 (hst.getD 0 0) a, add32 (hst.getD 1 0) b, add32 (hst.getD 2 0) c,
   add32 (hst.getD 3 0) d, add32 (hst.getD 4 0) e, add32 (hst.getD 5 0) f,
   add32 (hst.getD 6 0) g, add32 (hst.getD 7 0) h]

/-- Lower-case hex digit. -/
def hexChar (n : Nat) : Char :=
  if n < 10 then Char.ofNat (48 + n) else Char.ofNat (87 + n)

/-- Eight hex characters of a 32-bit word, most significant nibble first. -/
def wordHex (w : Nat) : List Char :=
  (List.range 8).map (fun i => hexChar (w / 2 ^ (4 * (7 - i)) % 16))

/-- SHA-256 hex digest of a byte string (model of
`hashlib.sha256(bytes).hexdigest()`). -/
def sha256hexBytes (msg : List Nat) : String :=
  let ws := bytesToWords (padBytes msg)
  let hs := (chunk16 ws.length ws).foldl compressBlock initH
  String.mk (hs.foldr (fun w acc => wordHex w ++ acc) [])

/-- SHA-256 hex digest of the UTF-8 encoding of a string (model of
`hashlib.sha256(s.encode("utf-8")).hexdigest()`). -/
def sha256hex (s : String) : String := sha256hexBytes (strBytes s)

/-- Value of one hex digit (model of what `int(s, 16)` does per character). -/
def hexVal (c : Char) : Nat :=
  if c.toNat ≥ 97 then c.toNat - 87
  else if c.toNat ≥ 65 then c.toNat - 55
  else c.toNat - 48

/-- Base-16 value of a digit list (model of `int(s, 16)`). -/
def hexToNat (cs : List Char) : Nat := cs.foldl (fun a c => 16 * a + hexVal c) 0

/-! ## Calendar dates and the Daily Selector -/

/-- A calendar date, as held by `datetime.date`. -/
structure Date where
  year : Nat
  month : Nat
  day : Nat
deriving DecidableEq, Repr

/-- Left-pad a decimal rendering with zeros. -/
def padZeros (s : String) (w : Nat) : String :=
  String.mk (List.replicate (w - s.length) '0') ++ s

/-- ISO-8601 `YYYY-MM-DD` string of a date (model of `date.isoformat()`). -/
def Date.isoformat (d : Date) : String :=
  padZeros (toString d.year) 4 ++ "-" ++ padZeros (toString d.month) 2 ++ "-" ++
    padZeros (toString d.day) 2

/-- Model of `_seed_for_date`: first 8 hex characters of the SHA-256 hex
digest of the date's ISO string, read as a base-16 integer. -/
def seed_for_date (d : Date) : Nat :=
  hexToNat ((sha256hex d.isoformat).toList.take 8)

/-- Model of `pick_daily`: empty list gives `""`, otherwise the item at
`seed mod length`. -/
def pick_daily (items : List String) (d : Date) : String :=
  if items.isEmpty then ""
  else items.getD (seed_for_date d % items.length) ""

/-! ## JSON values

Python values that flow through `json.loads`, `summarize_onthisday` and
`build_day_data` are modelled by a small JSON value type. Objects are
association lists; `json.loads` never produces duplicate keys, so
first-match lookup agrees with Python dict lookup on every value the
program handles. -/

/-- A JSON value (the result type of `json.loads`). -/
inductive Json where
  | null : Json
  | bool : Bool → Json
  | num : Int → Json
  | str : String → Json
  | arr : List Json → Json
  | obj : List (String × Json) → Json
deriving Repr

/-- Dict lookup (model of `dict.get(k)`, `None` for a missing key). -/
def getKey (kvs : List (String × Json)) (k : String) : Option Json :=
  match kvs with
  | [] => none
  | (k2, v) :: rest => if k2 = k then some v else getKey rest k

/-- Python truthiness of a JSON value (`bool(v)`). -/
def truthy : Json → Bool
  | .null => false
  | .bool b => b
  | .num n => n != 0
  | .str s => s != ""
  | .arr xs => !xs.isEmpty
  | .obj kvs => !kvs.isEmpty

/-- Python iteration over a JSON value (`for it in v`): lists yield their
elements, strings their characters, dicts their keys; `None`, booleans and
numbers are not iterable (`TypeError`). -/
def pyIter : Json → Option (List Json)
  | .arr xs => some xs
  | .str s => some (s.toList.map fun c => Json.str (String.mk [c]))
  | .obj kvs => some (kvs.map fun kv => Json.str kv.1)
  | _ => none

/-- Model of `pick_daily_obj`: empty list gives `{}`, otherwise the record
at `seed mod length`. -/
def pick_daily_obj (items : List Json) (d : Date) : Json :=
  if items.isEmpty then Json.obj []
  else items.getD (seed_for_date d % items.length) (Json.obj [])

/-! ## Fixed content lists (copied verbatim from the module's globals) -/

def NEW_MOM_TIPS : List String := [
  "If you did one small kind thing for yourself today (water, snack, shower, a 2-minute stretch), that counts as winning.",
  "Sleep isn’t a moral issue. Any rest you get is valid. If you can, trade naps like a pager rotation: one on, one off.",
  "If you feel overwhelmed, shrink the scope: ‘next 10 minutes’ instead of ‘the whole day.’",
  "Feeding the baby is the goal. The method is personal. You’re allowed to choose what works for your family.",
  "A crying baby is not a failing parent. It’s a tiny human communicating with the tools they have.",
  "If visitors add work, you’re allowed to say: ‘We’d love help—could you bring food or fold laundry?’",
  "Gentle reminder: you don’t need to ‘bounce back.’ You’re not an app rollback. You’re a human.",
  "Try the ‘minimum viable routine’: one anchor you can usually do (tea, sunlight, a short walk, a playlist)."]

def DEVOPS_FACTS : List String := [
  "Blameless postmortems work because they optimize for learning, not punishment—systems fail; humans adapt.",
  "Idempotency is self-care for infrastructure: running it twice shouldn’t make things worse.",
  "Good alerts are actionable. If it can’t be acted on, it’s probably noise (and noise steals rest).",
  "SLOs are empathy tools: they set expectations so teams (and parents) aren’t living in permanent ‘SEV-1.’",
  "The fastest incident response is often: reduce scope, restore service, then investigate. Same with hard nights.",
  "Backpressure is a kindness: it protects downstream systems—like saying ‘not today’ to extra commitments.",
  "‘You build it, you run it’ is powerful—until burnout. Sustainable on-call is a feature, not a luxury."]

def COZY_ANIME_VIBES : List String := [
  "Forest spirit moment: notice one tiny detail (steam from tea, warm socks, the sound of rain).",
  "Soft animation rule: slow down one scene today. You don’t have to time-lapse your life.",
  "Kindness quest: send one simple message to someone you trust: ‘Could use a little encouragement today.’",
  "Tiny heroism: do one small helpful task that future-you will thank you for (refill water, prep a snack).",
  "Gentle magic: open a window for 60 seconds. Fresh air counts as a reset.",
  "Cozy soundtrack: play one calming song and breathe with it—no productivity required."]

def POWER_COUPLE_CHALLENGES : List Json := [
  Json.obj [("title", Json.str "The 7-Minute Hand-Off"),
    ("why", Json.str "Reduce friction + keep teamwork alive."),
    ("steps", Json.arr [Json.str "One person gets 7 minutes completely off-duty (no questions).", Json.str "Other person handles the immediate need (baby/cat/laundry/whatever).", Json.str "Switch. Celebrate the swap like a successful deploy."])],
  Json.obj [("title", Json.str "Two-Truths Status Update"),
    ("why", Json.str "Stay connected without a long talk."),
    ("steps", Json.arr [Json.str "Each share: (1) one hard thing, (2) one good/neutral thing.", Json.str "No fixing—just ‘heard you.’", Json.str "Optional: one tiny ask (‘Could you refill bottles?’)."])],
  Json.obj [("title", Json.str "Incident Command Lite"),
    ("why", Json.str "When everything’s on fire, roles help."),
    ("steps", Json.arr [Json.str "Pick roles for 20 minutes: IC (decides), Operator (does), Scribe (notes).", Json.str "Define goal: ‘Everyone fed + back to bed.’", Json.str "After: 30-second retro—one thing that worked."])]]

def CAT_CORNER : List String := [
  "Cat pro-tip: put a soft blanket in a ‘cat-approved’ spot near where you feed/rock baby—cats love being included without being on top of you.",
  "If the litter box smell suddenly changes, it might be time for a deeper clean—or a quick vet check if behavior changes. (Trust your instincts.)",
  "A scratching post near the high-traffic baby zone can redirect stress scratching into something positive.",
  "Keep dangling strings/ribbons out of reach—cats + tired humans + small objects is a chaos combo."]

def LOCAL_FUN_FACTS : List String := [
  "Honey never spoils—archaeologists have tasted ancient honey found in tombs.",
  "Octopuses have three hearts and blue blood.",
  "Bananas are berries, but strawberries aren’t (botany is a menace).",
  "The dot over an ‘i’ or ‘j’ is called a ‘tittle.’",
  "Cats have fewer taste receptors for sweetness than humans do.",
  "The first computer ‘bug’ was famously a moth found in a relay."]

def KIND_REMINDERS : List String := [
  "You are not behind. You are living through a high-demand season.",
  "Your worth is not measured in output, cleanliness, or inbox zero.",
  "Asking for help is senior-level engineering: it’s resource management.",
  "You can be brilliant and exhausted at the same time."]

def SAFE_DISCLAIMER : String :=
  "This page is for comfort + education only, not medical advice. If you’re worried about your health or safety, contact a clinician or local emergency number."

/-! ## History Fetcher -/

/-- An exception the embedded code can raise to its caller. -/
inductive PyError where
  | unicodeDecodeError : PyError
  | typeError : PyError
deriving DecidableEq, Repr

/-- Whether a byte is a UTF-8 continuation byte (`0x80..0xBF`). -/
def isCont (b : Nat) : Bool := 128 ≤ b && b < 192

/-- Strict UTF-8 decoding (model of `bytes.decode("utf-8")`): rejects bad
start bytes, truncated sequences, overlong encodings, surrogates and code
points above `0x10FFFF`, exactly as CPython's strict codec does. -/
def decodeUtf8 : List Nat → Option (List Char)
  | [] => some []
  | b :: rest =>
    if b < 128 then (decodeUtf8 rest).map (fun cs => Char.ofNat b :: cs)
    else if b < 194 then none
    else if b < 224 then
      match rest with
      | c1 :: rest2 =>
        if isCont c1 then
          (decodeUtf8 rest2).map (fun cs => Char.ofNat ((b - 192) * 64 + (c1 - 128)) :: cs)
        else none
      | _ => none
    else if b < 240 then
      match rest with
      | c1 :: c2 :: rest2 =>
        if isCont c1 && isCont c2 then
          let cp := (b - 224) * 4096 + (c1 - 128) * 64 + (c2 - 128)
          if cp < 2048 || (55296 ≤ cp && cp < 57344) then none
          else (decodeUtf8 rest2).map (fun cs => Char.ofNat cp :: cs)
        else none
      | _ => none
    else if b < 245 then
      match rest with
      | c1 :: c2 :: c3 :: rest2 =>
        if isCont c1 && isCont c2 && isCont c3 then
          let cp := (b - 240) * 262144 + (c1 - 128) * 4096 + (c2 - 128) * 64 + (c3 - 128)
          if cp < 65536 || cp > 1114111 then none
          else (decodeUtf8 rest2).map (fun cs => Char.ofNat cp :: cs)
        else none
      | _ => none
    else none

/-- Observable outcome of the HTTP request in
`try_fetch_wikimedia_onthisday`: either an error the `except` clause
names (`URLError`, `HTTPError`, `TimeoutError` — network failure or
timeout), or a response with a status code and raw body bytes. -/
inductive FetchOutcome where
  | netError : FetchOutcome
  | response : Nat → List Nat → FetchOutcome

/-- Model of `try_fetch_wikimedia_onthisday`, with the request's outcome
passed in and `json.loads` abstracted as `parse` (only its
success-or-`JSONDecodeError` behaviour is used). Mirrors the `try` block:
a caught error or a non-200 status gives `None`; a 200 body is decoded as
UTF-8 — an undecodable body raises `UnicodeDecodeError`, which the
`except` tuple does not catch — then parsed, a parse failure
(`json.JSONDecodeError`) giving `None`. -/
def try_fetch_wikimedia_onthisday (parse : String → Option Json)
    (outcome : FetchOutcome) : Except PyError (Option Json) :=
  match outcome with
  | .netError => .ok none
  | .response status body =>
    if status ≠ 200 then .ok none
    else
      match decodeUtf8 body with
      | none => .error .unicodeDecodeError
      | some cs =>
        match parse (String.mk cs) with
        | none => .ok none
        | some j => .ok (some j)

/-- Model of `v or []` applied to the result of `payload.get(k)`: a
missing key or a falsy value becomes the empty list. -/
def orElseList (v : Option Json) : Json :=
  match v with
  | none => Json.arr []
  | some j => if truthy j then j else Json.arr []

/-- Model of the body of `pick_top`'s loop for one record: a dict with
truthy `text` yields `{"year": year, "text": text}` (missing `year` is
`None`), anything else is skipped. -/
def cleanEntry (it : Json) : Option Json :=
  match it with
  | .obj kvs =>
    let year := (getKey kvs "year").getD Json.null
    let text := (getKey kvs "text").getD Json.null
    if truthy text then some (Json.obj [("year", year), ("text", text)]) else none
  | _ => none

/-- Model of `pick_top`: iterate (raising `TypeError` on a non-iterable),
clean each record, keep the first `n`. -/
def pick_top (items : Json) (n : Nat) : Except PyError (List Json) :=
  match pyIter items with
  | none => .error .typeError
  | some its => .ok ((its.filterMap cleanEntry).take n)

/-- Model of `{"kind": k, **e}`: prepend the `kind` key. -/
def withKind (k : String) : Json → Json
  | .obj kvs => .obj (("kind", Json.str k) :: kvs)
  | j => j

/-- Model of `summarize_onthisday`: non-dict payloads give `[]`; otherwise
up to 3 cleaned events then up to 2 cleaned births. -/
def summarize_onthisday (payload : Json) : Except PyError (List Json) :=
  match payload with
  | .obj kvs =>
    let events := orElseList (getKey kvs "events")
    let births := orElseList (getKey kvs "births")
    match pick_top events 3 with
    | .error e => .error e
    | .ok evs =>
      match pick_top births 2 with
      | .error e => .error e
      | .ok brs => .ok (evs.map (withKind "event") ++ brs.map (withKind "birth"))
  | _ => .ok []

/-! ## Day Payload Assembler -/

/-- The `onthisday`/`src` computation of `build_day_data`: `src` starts as
`"local"`; a truthy fetched payload is summarized (an exception
propagates), and `src` becomes `"wikimedia"` exactly when the summary is
non-empty. -/
def onthisday_and_src (wiki_payload : Option Json) :
    Except PyError (List Json × String) :=
  match wiki_payload with
  | some p =>
    if truthy p then
      match summarize_onthisday p with
      | .error e => .error e
      | .ok o => .ok (o, if o.isEmpty then "local" else "wikimedia")
    else .ok ([], "local")
  | none => .ok ([], "local")

/-- The dict literal `build_day_data` returns, with the picks inlined. -/
def assembleDoc (today : Date) (onthisday : List Json) (src : String) : Json :=
  Json.obj [
    ("date", Json.str today.isoformat),
    ("safe_disclaimer", Json.str SAFE_DISCLAIMER),
    ("new_mom_tip", Json.str (pick_daily NEW_MOM_TIPS today)),
    ("devops_fact", Json.str (pick_daily DEVOPS_FACTS today)),
    ("anime_vibe", Json.str (pick_daily COZY_ANIME_VIBES today)),
    ("cat_corner", Json.str (pick_daily CAT_CORNER today)),
    ("kind_reminder", Json.str (pick_daily KIND_REMINDERS today)),
    ("power_couple_challenge", pick_daily_obj POWER_COUPLE_CHALLENGES today),
    ("fun_fact", Json.str (pick_daily LOCAL_FUN_FACTS today)),
    ("on_this_day", Json.arr onthisday),
    ("on_this_day_source", Json.str src)]

/-- Model of `build_day_data`, with the value returned by
`try_fetch_wikimedia_onthisday` passed in (`none` for a failed fetch). An
exception from `summarize_onthisday` propagates. -/
def build_day_data (today : Date) (wiki_payload : Option Json) :
    Except PyError Json :=
  match onthisday_and_src wiki_payload with
  | .error e => .error e
  | .ok (onthisday, src) => .ok (assembleDoc today onthisday src)

/-- The named field of a successfully built document. -/
def docField (r : Except PyError Json) (k : String) : Option Json :=
  match r with
  | .ok (.obj kvs) => getKey kvs k
  | _ => none

/-- The key list of a successfully built document. -/
def docKeys (r : Except PyError Json) : Option (List String) :=
  match r with
  | .ok (.obj kvs) => some (kvs.map Prod.fst)
  | _ => none

/-! ## HTTP routing (`Handler.do_GET`) -/

/-- A response as `Handler._send` produces it: status, body, content type. -/
structure HttpResponse where
  status : Nat
  body : String
  contentType : String
deriving DecidableEq, Repr

/-- Model of `Handler.do_GET` on the parsed request path, with the static
page text and the serialized day payload passed in (their construction is
independent of routing). -/
def do_GET (page : String) (daydata : String) (path : String) : HttpResponse :=
  if path = "/" ∨ path = "/index.html" then
    ⟨200, page, "text/html; charset=utf-8"⟩
  else if path = "/api/daydata" then
    ⟨200, daydata, "application/json; charset=utf-8"⟩
  else if path = "/health" then
    ⟨200, "ok\n", "text/plain; charset=utf-8"⟩
  else
    ⟨404, "Not found\n", "text/plain; charset=utf-8"⟩

/-! ## Spec-side normalization (for the refinement statement of the
History Fetcher's summary step)

These definitions follow the specification's words: keep only records
with non-empty text, truncate to 3 events and 2 births preserving source
order, and normalize each kept record to kind/year/text. -/

/-- Whether a feed entry is a record (a JSON object). -/
def entryIsRecord : Json → Bool
  | .obj _ => true
  | _ => false

/-- The `year` of a record, `null` when absent. -/
def entryYear (e : Json) : Json :=
  match e with
  | .obj kvs => (getKey kvs "year").getD Json.null
  | _ => Json.null

/-- The `text` of a record, `null` when absent. -/
def entryText (e : Json) : Json :=
  match e with
  | .obj kvs => (getKey kvs "text").getD Json.null
  | _ => Json.null

/-- The spec's keep condition: a record with non-empty text. -/
def keepsEntry (e : Json) : Bool := entryIsRecord e && truthy (entryText e)

/-- The spec's normalized bullet `{kind, year (nullable), text}`. -/
def toBullet (kind : String) (e : Json) : Json :=
  Json.obj [("kind", Json.str kind), ("year", entryYear e), ("text", entryText e)]

/-- The spec's description of the summary, directly as written: filter,
cap (3 events, 2 births), normalize, events before births, order kept. -/
def summarizeSpec (evs bls : List Json) : List Json :=
  ((evs.filter keepsEntry).take 3).map (toBullet "event") ++
    ((bls.filter keepsEntry).take 2).map (toBullet "birth")

/-- Whether the `events`/`births` slot is safe to iterate after the
`or []` normalization (everything except a truthy number or `True`). -/
def safeField (v : Json) : Bool :=
  match v with
  | .num n => n == 0
  | .bool b => !b
  | _ => true

/-- Whether a payload's `events` and `births` fields are both safe. -/
def safeFields (payload : Json) : Bool :=
  match payload with
  | .obj kvs =>
    safeField ((getKey kvs "events").getD Json.null) &&
      safeField ((getKey kvs "births").getD Json.null)
  | _ => true

/-! ## Sanity checks of the hash model against published SHA-256 values -/

/-- FIPS 180-4 test vector: digest of `"abc"`. -/
theorem sha256hex_abc :
    sha256hex "abc" =
      "ba7816bf8f01cfea414140de5dae2223b00361a396177a9cb410ff61f20015ad" := by
  decide

/-- FIPS 180-4 test vector: digest of the empty message. -/
theorem sha256hex_empty_message :
    sha256hex "" =
      "e3b0c44298fc1c149afbf4c8996fb92427ae41e4649b934ca495991b7852b855" := by
  decide

/-- The concrete seed of 2024-01-01, `int(sha256("2024-01-01")[:8], 16)`. -/
theorem seed_for_date_2024_01_01 : seed_for_date ⟨2024, 1, 1⟩ = 1102458804 := by
  decide

/-! ## C1: determinism of the Daily Selector -/

/-- C1: for every fixed content list and every pair of dates with the same
ISO-8601 string, `pick_daily` and `pick_daily_obj` return the same item —
the selection depends only on the date string and the list. -/
theorem pick_daily_same_iso_same_item (items : List String) (objs : List Json)
    (d1 d2 : Date) (h : d1.isoformat = d2.isoformat) :
    pick_daily items d1 = pick_daily items d2 ∧
    pick_daily_obj objs d1 = pick_daily_obj objs d2 := by
  have hs : seed_for_date d1 = seed_for_date d2 := by
    unfold seed_for_date
    rw [h]
  constructor <;> simp only [pick_daily, pick_daily_obj, hs]

/-- Witness for C1 at the concrete date 2024-01-01. -/
theorem pick_daily_same_iso_same_item_witness :
    pick_daily NEW_MOM_TIPS ⟨2024, 1, 1⟩ = pick_daily NEW_MOM_TIPS ⟨2024, 1, 1⟩ ∧
    pick_daily_obj POWER_COUPLE_CHALLENGES ⟨2024, 1, 1⟩ =
      pick_daily_obj POWER_COUPLE_CHALLENGES ⟨2024, 1, 1⟩ :=
  pick_daily_same_iso_same_item NEW_MOM_TIPS POWER_COUPLE_CHALLENGES
    ⟨2024, 1, 1⟩ ⟨2024, 1, 1⟩ rfl

/-! ## C2: the selection algorithm is SHA-256 of the ISO string -/

/-- C2: for a non-empty list, `pick_daily` returns the item at index
(first 8 hex characters of the SHA-256 hex digest of the date's ISO-8601
string, read base 16) mod the list length, and `pick_daily_obj` indexes
with the very same seed value for the same date. -/
theorem pick_daily_sha256_formula (items : List String) (objs : List Json)
    (d : Date) (h1 : items ≠ []) (h2 : objs ≠ []) :
    pick_daily items d =
      items.getD
        (hexToNat ((sha256hex d.isoformat).toList.take 8) % items.length) "" ∧
    pick_daily_obj objs d =
      objs.getD
        (hexToNat ((sha256hex d.isoformat).toList.take 8) % objs.length)
        (Json.obj []) := by
  constructor
  · cases items with
    | nil => exact absurd rfl h1
    | cons a l => rfl
  · cases objs with
    | nil => exact absurd rfl h2
    | cons a l => rfl

/-- Witness for C2 on the real content lists at 2024-01-01. -/
theorem pick_daily_sha256_formula_witness :
    NEW_MOM_TIPS ≠ [] ∧ POWER_COUPLE_CHALLENGES ≠ [] ∧
    pick_daily NEW_MOM_TIPS ⟨2024, 1, 1⟩ =
      NEW_MOM_TIPS.getD
        (hexToNat ((sha256hex (Date.isoformat ⟨2024, 1, 1⟩)).toList.take 8) %
          NEW_MOM_TIPS.length) "" ∧
    pick_daily_obj POWER_COUPLE_CHALLENGES ⟨2024, 1, 1⟩ =
      POWER_COUPLE_CHALLENGES.getD
        (hexToNat ((sha256hex (Date.isoformat ⟨2024, 1, 1⟩)).toList.take 8) %
          POWER_COUPLE_CHALLENGES.length) (Json.obj []) := by
  refine ⟨by decide, by simp [POWER_COUPLE_CHALLENGES], ?_, ?_⟩
  · exact (pick_daily_sha256_formula NEW_MOM_TIPS POWER_COUPLE_CHALLENGES
      ⟨2024, 1, 1⟩ (by decide) (by simp [POWER_COUPLE_CHALLENGES])).1
  · exact (pick_daily_sha256_formula NEW_MOM_TIPS POWER_COUPLE_CHALLENGES
      ⟨2024, 1, 1⟩ (by decide) (by simp [POWER_COUPLE_CHALLENGES])).2

/-! ## C6: the index is always in range; empty lists give neutral values -/

/-- C6: for a non-empty list the computed index is in `[0, length)` (so
the list access cannot fail) and the pick is exactly the element there;
for the empty list `pick_daily` returns `""` and `pick_daily_obj` the
empty record, with no error. -/
theorem pick_index_in_range (items : List String) (objs : List Json)
    (d : Date) (h1 : items ≠ []) (h2 : objs ≠ []) :
    (seed_for_date d % items.length < items.length ∧
      pick_daily items d = items.getD (seed_for_date d % items.length) "") ∧
    (seed_for_date d % objs.length < objs.length ∧
      pick_daily_obj objs d = objs.getD (seed_for_date d % objs.length) (Json.obj [])) ∧
    pick_daily [] d = "" ∧ pick_daily_obj [] d = Json.obj [] := by
  refine ⟨⟨Nat.mod_lt _ (List.length_pos.mpr h1), ?_⟩,
          ⟨Nat.mod_lt _ (List.length_pos.mpr h2), ?_⟩, rfl, rfl⟩
  · cases items with
    | nil => exact absurd rfl h1
    | cons a l => rfl
  · cases objs with
    | nil => exact absurd rfl h2
    | cons a l => rfl

/-- Witness for C6 on the real content lists at 2024-01-01. -/
theorem pick_index_in_range_witness :
    CAT_CORNER ≠ [] ∧ POWER_COUPLE_CHALLENGES ≠ [] ∧
    (seed_for_date ⟨2024, 1, 1⟩ % CAT_CORNER.length < CAT_CORNER.length ∧
      pick_daily CAT_CORNER ⟨2024, 1, 1⟩ =
        CAT_CORNER.getD (seed_for_date ⟨2024, 1, 1⟩ % CAT_CORNER.length) "") ∧
    pick_daily [] ⟨2024, 1, 1⟩ = "" ∧
    pick_daily_obj [] ⟨2024, 1, 1⟩ = Json.obj [] := by
  have h := pick_index_in_range CAT_CORNER POWER_COUPLE_CHALLENGES
    ⟨2024, 1, 1⟩ (by decide) (by simp [POWER_COUPLE_CHALLENGES])
  exact ⟨by decide, by simp [POWER_COUPLE_CHALLENGES], h.1, h.2.2⟩

/-! ## C8: routing

The claim that `/health` answers with body exactly `"ok"` fails on the
code: `do_GET` sends `b"ok\n"`, the two characters `ok` followed by a
newline. The 200 status and the 404 routing for unknown paths hold. -/

/-- C8 counterexample: the `/health` body is `"ok\n"`, not exactly
`"ok"`. -/
theorem health_body_is_ok_newline :
    (do_GET "" "" "/health").status = 200 ∧
    (do_GET "" "" "/health").body = "ok\n" ∧
    (do_GET "" "" "/health").body ≠ "ok" := by
  refine ⟨rfl, rfl, ?_⟩
  decide

/-- C8 amended: for every GET request, `/health` yields status 200 with
the fixed body `"ok\n"`, and every path other than `/`, `/index.html`,
`/api/daydata` and `/health` yields a 404 not-found response. -/
theorem health_ok_and_unknown_not_found (page daydata path : String)
    (h : path ∉ (["/", "/index.html", "/api/daydata", "/health"] : List String)) :
    do_GET page daydata "/health" = ⟨200, "ok\n", "text/plain; charset=utf-8"⟩ ∧
    do_GET page daydata path = ⟨404, "Not found\n", "text/plain; charset=utf-8"⟩ := by
  simp only [List.mem_cons, List.mem_singleton, not_or] at h
  obtain ⟨h1, h2, h3, h4⟩ := h
  refine ⟨rfl, ?_⟩
  simp [do_GET, h1, h2, h3, h4]

/-- Witness for C8 (amended) at the concrete unknown path `/nope`. -/
theorem health_ok_and_unknown_not_found_witness :
    "/nope" ∉ (["/", "/index.html", "/api/daydata", "/health"] : List String) ∧
    do_GET "page" "data" "/health" =
      ⟨200, "ok\n", "text/plain; charset=utf-8"⟩ ∧
    do_GET "page" "data" "/nope" =
      ⟨404, "Not found\n", "text/plain; charset=utf-8"⟩ :=
  ⟨by decide, health_ok_and_unknown_not_found "page" "data" "/nope" (by decide)⟩

/-! ## C4: failure handling of the History Fetcher

The claim that `try_fetch_wikimedia_onthisday` never raises fails on the
code: the `except` tuple catches `URLError`, `HTTPError`, `TimeoutError`
and `json.JSONDecodeError`, but the body is decoded with
`data.decode("utf-8")`, and `UnicodeDecodeError` is not a subclass of any
of the four, so a 200 response whose body is not valid UTF-8 (for
instance the single byte `0xff`) propagates `UnicodeDecodeError` to the
caller — contradicting the function's own docstring ("Returns parsed JSON
dict or None on failure"). All other listed failures do return `None`. -/

/-- C4: a network error, a non-success status, or a well-formed body that
is not valid JSON all yield `None`; but a 200 response whose body is not
decodable UTF-8 raises instead of returning `None`. -/
theorem try_fetch_fallback_and_unicode_bug :
    (∀ parse : String → Option Json,
      try_fetch_wikimedia_onthisday parse .netError = .ok none) ∧
    (∀ (parse : String → Option Json) (body : List Nat),
      try_fetch_wikimedia_onthisday parse (.response 404 body) = .ok none) ∧
    try_fetch_wikimedia_onthisday (fun _ => none) (.response 200 [123]) =
      .ok none ∧
    (∀ parse : String → Option Json,
      try_fetch_wikimedia_onthisday parse (.response 200 [255]) =
        .error .unicodeDecodeError) := by
  exact ⟨fun _ => rfl, fun _ _ => rfl, rfl, fun _ => rfl⟩

/-! ## Day Payload lemmas -/

/-- Field lookups on the assembled document, by key. -/
theorem docField_assembleDoc (d : Date) (o : List Json) (s : String) :
    docField (.ok (assembleDoc d o s)) "date" = some (Json.str d.isoformat) ∧
    docField (.ok (assembleDoc d o s)) "safe_disclaimer" =
      some (Json.str SAFE_DISCLAIMER) ∧
    docField (.ok (assembleDoc d o s)) "on_this_day" = some (Json.arr o) ∧
    docField (.ok (assembleDoc d o s)) "on_this_day_source" =
      some (Json.str s) ∧
    docKeys (.ok (assembleDoc d o s)) =
      some ["date", "safe_disclaimer", "new_mom_tip", "devops_fact",
            "anime_vibe", "cat_corner", "kind_reminder",
            "power_couple_challenge", "fun_fact", "on_this_day",
            "on_this_day_source"] :=
  ⟨rfl, rfl, rfl, rfl, rfl⟩

/-- The `onthisday`/`src` step only ever succeeds with `src = "wikimedia"`
and a non-empty bullet list, or `src = "local"` and the empty list. -/
theorem onthisday_and_src_spec (w : Option Json) (o : List Json) (s : String)
    (h : onthisday_and_src w = .ok (o, s)) :
    (s = "wikimedia" ∧ o ≠ []) ∨ (s = "local" ∧ o = []) := by
  rcases w with - | p
  · simp only [onthisday_and_src, Except.ok.injEq, Prod.mk.injEq] at h
    exact Or.inr ⟨h.2.symm, h.1.symm⟩
  · by_cases ht : truthy p
    · rcases hs : summarize_onthisday p with e | l
      · simp [onthisday_and_src, ht, hs] at h
      · simp only [onthisday_and_src, ht, hs, if_true, Except.ok.injEq,
          Prod.mk.injEq] at h
        obtain ⟨h1, h2⟩ := h
        subst h1
        subst h2
        cases l with
        | nil => exact Or.inr ⟨rfl, rfl⟩
        | cons a t => exact Or.inl ⟨rfl, by simp⟩
    · simp [onthisday_and_src, ht] at h
      obtain ⟨h1, h2⟩ := h
      subst h1
      subst h2
      exact Or.inr ⟨rfl, rfl⟩

/-- A successfully built document is the assembled dict for some
`onthisday`/`src` pair the step produced. -/
theorem build_day_data_ok (d : Date) (w : Option Json)
    (h : (build_day_data d w).isOk = true) :
    ∃ o s, onthisday_and_src w = .ok (o, s) ∧
      build_day_data d w = .ok (assembleDoc d o s) := by
  unfold build_day_data at h ⊢
  rcases hs : onthisday_and_src w with e | ⟨o, s⟩
  · rw [hs] at h
    exact absurd h (by simp [Except.isOk, Except.toBool])
  · exact ⟨o, s, rfl, rfl⟩

/-! ## C3: payload contents when the external history feed is unavailable

The claim fails on the code: when the fetch fails (or yields nothing
usable) the document's `on_this_day` field is the *empty* array, not the
fixed 3-bullet local fallback list — those three bullets exist only in
the client-side script, which renders them when it receives an empty
array. The `on_this_day_source = "local"` half of the claim holds. -/

/-- C3 counterexample: with the fetch failed, the built document's
`on_this_day` is the empty array — in particular it is not a list of
exactly 3 fallback bullets — while `on_this_day_source` is `"local"`. -/
theorem on_this_day_fallback_counterexample :
    docField (build_day_data ⟨2024, 1, 1⟩ none) "on_this_day" =
      some (Json.arr []) ∧
    docField (build_day_data ⟨2024, 1, 1⟩ none) "on_this_day_source" =
      some (Json.str "local") ∧
    ¬ ∃ bullets : List Json,
        docField (build_day_data ⟨2024, 1, 1⟩ none) "on_this_day" =
          some (Json.arr bullets) ∧ bullets.length = 3 := by
  refine ⟨rfl, rfl, ?_⟩
  rintro ⟨bullets, hb, hlen⟩
  have : Json.arr [] = Json.arr bullets := by
    have h0 : docField (build_day_data ⟨2024, 1, 1⟩ none) "on_this_day" =
        some (Json.arr []) := rfl
    exact Option.some.inj (h0 ▸ hb)
  obtain rfl : bullets = [] := (Json.arr.inj this).symm
  simp at hlen

/-- C3 amended: when the fetch fails, returns a falsy payload, or returns
a payload that summarizes to nothing usable, the built document's
`on_this_day` is the empty array and `on_this_day_source` is `"local"`
(the fixed 3-bullet fallback is supplied by the client page, outside the
payload). -/
theorem on_this_day_empty_local_when_unavailable (d : Date)
    (w : Option Json)
    (h : w = none ∨ ∃ j, w = some j ∧
      (truthy j = false ∨ summarize_onthisday j = .ok [])) :
    docField (build_day_data d w) "on_this_day" = some (Json.arr []) ∧
    docField (build_day_data d w) "on_this_day_source" =
      some (Json.str "local") := by
  have hstep : onthisday_and_src w = .ok ([], "local") := by
    rcases h with rfl | ⟨j, rfl, hj | hj⟩
    · rfl
    · simp [onthisday_and_src, hj]
    · cases ht : truthy j <;> simp [onthisday_and_src, ht, hj]
  have hb : build_day_data d w = .ok (assembleDoc d [] "local") := by
    unfold build_day_data
    rw [hstep]
  rw [hb]
  exact ⟨(docField_assembleDoc d [] "local").2.2.1,
         (docField_assembleDoc d [] "local").2.2.2.1⟩

/-- Witness for C3 (amended): a failed fetch on 2024-01-01. -/
theorem on_this_day_empty_local_when_unavailable_witness :
    docField (build_day_data ⟨2024, 1, 1⟩ none) "on_this_day" =
      some (Json.arr []) ∧
    docField (build_day_data ⟨2024, 1, 1⟩ none) "on_this_day_source" =
      some (Json.str "local") :=
  on_this_day_empty_local_when_unavailable ⟨2024, 1, 1⟩ none (Or.inl rfl)

/-! ## C7: the document schema -/

/-- C7: every successfully built document has exactly the documented
field set, in order — `date` (the ISO string of the input date),
`safe_disclaimer` (a fixed non-empty string), one field per content
category, `on_this_day` (an array) and `on_this_day_source` (`"local"` or
`"wikimedia"`) — with no extra or missing fields. -/
theorem build_day_data_schema (d : Date) (w : Option Json)
    (h : (build_day_data d w).isOk = true) :
    docKeys (build_day_data d w) =
      some ["date", "safe_disclaimer", "new_mom_tip", "devops_fact",
            "anime_vibe", "cat_corner", "kind_reminder",
            "power_couple_challenge", "fun_fact", "on_this_day",
            "on_this_day_source"] ∧
    docField (build_day_data d w) "date" = some (Json.str d.isoformat) ∧
    docField (build_day_data d w) "safe_disclaimer" =
      some (Json.str SAFE_DISCLAIMER) ∧
    SAFE_DISCLAIMER ≠ "" ∧
    (∃ bullets, docField (build_day_data d w) "on_this_day" =
      some (Json.arr bullets)) ∧
    (docField (build_day_data d w) "on_this_day_source" =
        some (Json.str "local") ∨
     docField (build_day_data d w) "on_this_day_source" =
        some (Json.str "wikimedia")) := by
  obtain ⟨o, s, hstep, hb⟩ := build_day_data_ok d w h
  rw [hb]
  obtain ⟨f1, f2, f3, f4, f5⟩ := docField_assembleDoc d o s
  refine ⟨f5, f1, f2, by decide, ⟨o, f3⟩, ?_⟩
  rcases onthisday_and_src_spec w o s hstep with ⟨rfl, -⟩ | ⟨rfl, -⟩
  · right; exact f4
  · left; exact f4

/-- Witness for C7: the schema of the document for 2024-01-01 with the
fetch failed. -/
theorem build_day_data_schema_witness :
    docKeys (build_day_data ⟨2024, 1, 1⟩ none) =
      some ["date", "safe_disclaimer", "new_mom_tip", "devops_fact",
            "anime_vibe", "cat_corner", "kind_reminder",
            "power_couple_challenge", "fun_fact", "on_this_day",
            "on_this_day_source"] ∧
    docField (build_day_data ⟨2024, 1, 1⟩ none) "date" =
      some (Json.str (Date.isoformat ⟨2024, 1, 1⟩)) ∧
    SAFE_DISCLAIMER ≠ "" := by
  have h := build_day_data_schema ⟨2024, 1, 1⟩ none rfl
  exact ⟨h.1, h.2.1, h.2.2.2.1⟩

/-! ## C9: the source tag tracks whether bullets are present -/

/-- C9: in every successfully built document, `on_this_day_source` is
`"wikimedia"` exactly when `on_this_day` is non-empty, and whenever it is
`"local"` the `on_this_day` array is empty — the server-side payload
never carries fallback bullets. -/
theorem source_wikimedia_iff_nonempty (d : Date) (w : Option Json)
    (h : (build_day_data d w).isOk = true) :
    (docField (build_day_data d w) "on_this_day_source" =
        some (Json.str "wikimedia") ↔
      ∃ bullets, docField (build_day_data d w) "on_this_day" =
        some (Json.arr bullets) ∧ bullets ≠ []) ∧
    (docField (build_day_data d w) "on_this_day_source" =
        some (Json.str "local") →
      docField (build_day_data d w) "on_this_day" = some (Json.arr [])) := by
  obtain ⟨o, s, hstep, hb⟩ := build_day_data_ok d w h
  rw [hb]
  obtain ⟨-, -, f3, f4, -⟩ := docField_assembleDoc d o s
  rcases onthisday_and_src_spec w o s hstep with ⟨rfl, ho⟩ | ⟨rfl, rfl⟩
  · constructor
    · exact ⟨fun _ => ⟨o, f3, ho⟩, fun _ => f4⟩
    · intro hl
      rw [f4] at hl
      have := Json.str.inj (Option.some.inj hl)
      simp at this
  · constructor
    · constructor
      · intro hl
        rw [f4] at hl
        have := Json.str.inj (Option.some.inj hl)
        simp at this
      · rintro ⟨bullets, hbul, hne⟩
        rw [f3] at hbul
        obtain rfl := (Json.arr.inj (Option.some.inj hbul)).symm
        exact absurd rfl hne
    · intro _
      exact f3

/-- Witness for C9: the document for 2024-01-01 with the fetch failed has
source `"local"`, and the theorem then forces its `on_this_day` to be the
empty array. -/
theorem source_wikimedia_iff_nonempty_witness :
    docField (build_day_data ⟨2024, 1, 1⟩ none) "on_this_day" =
      some (Json.arr []) :=
  (source_wikimedia_iff_nonempty ⟨2024, 1, 1⟩ none rfl).2 rfl

/-! ## Summarizer lemmas -/

/-- A kept record cleans to its year/text pair. -/
theorem cleanEntry_eq_of_keeps (a : Json) (hk : keepsEntry a = true) :
    cleanEntry a =
      some (Json.obj [("year", entryYear a), ("text", entryText a)]) := by
  cases a with
  | obj kvs2 =>
    have htr : truthy ((getKey kvs2 "text").getD Json.null) = true := by
      simpa [keepsEntry, entryIsRecord, entryText] using hk
    simp [cleanEntry, htr, entryYear, entryText]
  | null => simp [keepsEntry, entryIsRecord] at hk
  | bool b => simp [keepsEntry, entryIsRecord] at hk
  | num n => simp [keepsEntry, entryIsRecord] at hk
  | str s => simp [keepsEntry, entryIsRecord] at hk
  | arr xs => simp [keepsEntry, entryIsRecord] at hk

/-- A dropped record cleans to nothing. -/
theorem cleanEntry_eq_none_of_not_keeps (a : Json) (hk : keepsEntry a = false) :
    cleanEntry a = none := by
  cases a with
  | obj kvs2 =>
    have htr : truthy ((getKey kvs2 "text").getD Json.null) = false := by
      simpa [keepsEntry, entryIsRecord, entryText] using hk
    simp [cleanEntry, htr]
  | null => rfl
  | bool b => rfl
  | num n => rfl
  | str s => rfl
  | arr xs => rfl

/-- The cleaning pass is filtering by the keep condition followed by
projection to the year/text record. -/
theorem filterMap_cleanEntry (its : List Json) :
    its.filterMap cleanEntry =
      (its.filter keepsEntry).map
        (fun e => Json.obj [("year", entryYear e), ("text", entryText e)]) := by
  induction its with
  | nil => rfl
  | cons a t ih =>
    cases hk : keepsEntry a with
    | true =>
      simp [List.filterMap_cons, List.filter_cons, cleanEntry_eq_of_keeps a hk,
        hk, ih]
    | false =>
      simp [List.filterMap_cons, List.filter_cons,
        cleanEntry_eq_none_of_not_keeps a hk, hk, ih]

/-! ## C5: the normalization of the feed payload -/

/-- C5: for a payload whose `events` and `births` fields are arrays,
`summarize_onthisday` keeps only records with non-empty text, truncates
to at most 3 events and 2 births, preserves source order within each
category, and maps each kept record to the `{kind, year, text}` bullet —
exactly the spec-side `summarizeSpec`. -/
theorem summarize_matches_spec (kvs : List (String × Json))
    (evs bls : List Json)
    (he : getKey kvs "events" = some (Json.arr evs))
    (hb : getKey kvs "births" = some (Json.arr bls)) :
    summarize_onthisday (Json.obj kvs) = .ok (summarizeSpec evs bls) := by
  have hoe : orElseList (getKey kvs "events") = Json.arr evs := by
    rw [he]; cases evs <;> rfl
  have hob : orElseList (getKey kvs "births") = Json.arr bls := by
    rw [hb]; cases bls <;> rfl
  have h1 : summarize_onthisday (Json.obj kvs) =
      match pick_top (orElseList (getKey kvs "events")) 3 with
      | .error e => .error e
      | .ok evs2 =>
        match pick_top (orElseList (getKey kvs "births")) 2 with
        | .error e => .error e
        | .ok brs =>
          .ok (evs2.map (withKind "event") ++ brs.map (withKind "birth")) := rfl
  rw [h1, hoe, hob]
  have h2 : ((evs.filterMap cleanEntry).take 3).map (withKind "event") ++
      ((bls.filterMap cleanEntry).take 2).map (withKind "birth") =
      summarizeSpec evs bls := by
    unfold summarizeSpec
    rw [filterMap_cleanEntry evs, filterMap_cleanEntry bls,
      ← List.map_take, ← List.map_take, List.map_map, List.map_map]
    rfl
  exact congrArg Except.ok h2

/-- Witness for C5: the spec's own example — one 1969 event, no births —
normalizes to exactly one event bullet. -/
theorem summarize_matches_spec_witness :
    summarize_onthisday (Json.obj [
        ("events", Json.arr [Json.obj [("year", Json.num 1969),
          ("text", Json.str "Moon landing")]]),
        ("births", Json.arr [])]) =
      .ok [Json.obj [("kind", Json.str "event"), ("year", Json.num 1969),
        ("text", Json.str "Moon landing")]] :=
  (summarize_matches_spec
    [("events", Json.arr [Json.obj [("year", Json.num 1969),
      ("text", Json.str "Moon landing")]]), ("births", Json.arr [])]
    [Json.obj [("year", Json.num 1969), ("text", Json.str "Moon landing")]]
    [] rfl rfl).trans (by rfl)

/-! ## C10: totality and output shape of the summarizer

The claim that `summarize_onthisday` is total over arbitrary JSON-like
input fails on the code: `payload.get("events") or []` keeps a truthy
non-iterable value (a non-zero number or `True`) as is, and the `for`
loop in `pick_top` then raises `TypeError`. Every other part of the
claim holds. -/

/-- C10 counterexample: the JSON payload `{"events": 1}` makes
`summarize_onthisday` raise `TypeError` instead of returning a list. -/
theorem summarize_not_total_counterexample :
    summarize_onthisday (Json.obj [("events", Json.num 1)]) =
      .error .typeError := rfl

/-- After the `or []` normalization, a safe field is iterable. -/
theorem pyIter_orElseList_safe (o : Option Json)
    (h : safeField (o.getD Json.null) = true) :
    ∃ its, pyIter (orElseList o) = some its := by
  rcases o with - | j
  · exact ⟨[], rfl⟩
  · simp only [Option.getD] at h
    cases j with
    | null => exact ⟨[], rfl⟩
    | bool b =>
      cases b with
      | false => exact ⟨[], rfl⟩
      | true => simp [safeField] at h
    | num n =>
      obtain rfl : n = 0 := by simpa [safeField] using h
      exact ⟨[], rfl⟩
    | str s =>
      by_cases hs : s = ""
      · subst hs
        exact ⟨[], rfl⟩
      · refine ⟨s.toList.map fun c => Json.str (String.mk [c]), ?_⟩
        have ht : truthy (Json.str s) = true := by simp [truthy, hs]
        simp [orElseList, ht, pyIter]
    | arr xs =>
      cases xs with
      | nil => exact ⟨[], rfl⟩
      | cons a t => exact ⟨a :: t, rfl⟩
    | obj kvs =>
      cases kvs with
      | nil => exact ⟨[], rfl⟩
      | cons kv t => exact ⟨_, rfl⟩

/-- Every cleaned record is a year/text object with truthy text. -/
theorem mem_filterMap_cleanEntry_shape (its : List Json) (b : Json)
    (hb : b ∈ its.filterMap cleanEntry) :
    ∃ y t, b = Json.obj [("year", y), ("text", t)] ∧ truthy t = true := by
  rcases List.mem_filterMap.mp hb with ⟨a, -, hc⟩
  cases hk : keepsEntry a with
  | true =>
    rw [cleanEntry_eq_of_keeps a hk] at hc
    refine ⟨entryYear a, entryText a, (Option.some.inj hc).symm, ?_⟩
    have h2 : entryIsRecord a = true ∧ truthy (entryText a) = true := by
      simpa [keepsEntry, Bool.and_eq_true] using hk
    exact h2.2
  | false =>
    rw [cleanEntry_eq_none_of_not_keeps a hk] at hc
    cases hc

/-- C10 amended: `summarize_onthisday` returns normally on every JSON
payload whose `events`/`births` fields are not truthy non-iterables (it
raises `TypeError` on those); a non-dict payload yields `[]`; and every
output bullet is a kind/year/text object with kind `event` or `birth`
and truthy text, with all events (at most 3) preceding all births (at
most 2), so at most 5 bullets in total. -/
theorem summarize_total_and_bounded (payload : Json)
    (h : safeFields payload = true) :
    ∃ out, summarize_onthisday payload = .ok out ∧
      out.length ≤ 5 ∧
      (entryIsRecord payload = false → out = []) ∧
      ∃ es bs, out = es ++ bs ∧ es.length ≤ 3 ∧ bs.length ≤ 2 ∧
        (∀ b ∈ es, ∃ y t, b = Json.obj [("kind", Json.str "event"),
          ("year", y), ("text", t)] ∧ truthy t = true) ∧
        (∀ b ∈ bs, ∃ y t, b = Json.obj [("kind", Json.str "birth"),
          ("year", y), ("text", t)] ∧ truthy t = true) := by
  cases payload with
  | obj kvs =>
    simp only [safeFields, Bool.and_eq_true] at h
    obtain ⟨hse, hsb⟩ := h
    obtain ⟨ie, hie⟩ := pyIter_orElseList_safe (getKey kvs "events") hse
    obtain ⟨ib, hib⟩ := pyIter_orElseList_safe (getKey kvs "births") hsb
    have h1 : summarize_onthisday (Json.obj kvs) =
        match pick_top (orElseList (getKey kvs "events")) 3 with
        | .error e => .error e
        | .ok evs2 =>
          match pick_top (orElseList (getKey kvs "births")) 2 with
          | .error e => .error e
          | .ok brs =>
            .ok (evs2.map (withKind "event") ++ brs.map (withKind "birth")) :=
      rfl
    have hsum : summarize_onthisday (Json.obj kvs) =
        .ok (((ie.filterMap cleanEntry).take 3).map (withKind "event") ++
             ((ib.filterMap cleanEntry).take 2).map (withKind "birth")) := by
      rw [h1]
      simp [pick_top, hie, hib]
    refine ⟨_, hsum, ?_, ?_, ?_⟩
    · rw [List.length_append, List.length_map, List.length_map]
      have e3 := List.length_take_le 3 (ie.filterMap cleanEntry)
      have b2 := List.length_take_le 2 (ib.filterMap cleanEntry)
      omega
    · intro hfalse
      simp [entryIsRecord] at hfalse
    · refine ⟨_, _, rfl, ?_, ?_, ?_, ?_⟩
      · rw [List.length_map]
        exact List.length_take_le 3 _
      · rw [List.length_map]
        exact List.length_take_le 2 _
      · intro b hbmem
        rcases List.mem_map.mp hbmem with ⟨c, hcmem, rfl⟩
        obtain ⟨y, t, rfl, ht⟩ := mem_filterMap_cleanEntry_shape ie c
          (List.mem_of_mem_take hcmem)
        exact ⟨y, t, rfl, ht⟩
      · intro b hbmem
        rcases List.mem_map.mp hbmem with ⟨c, hcmem, rfl⟩
        obtain ⟨y, t, rfl, ht⟩ := mem_filterMap_cleanEntry_shape ib c
          (List.mem_of_mem_take hcmem)
        exact ⟨y, t, rfl, ht⟩
  | null =>
    exact ⟨[], rfl, by simp, fun _ => rfl, [], [], rfl, by simp, by simp,
      by simp, by simp⟩
  | bool b =>
    exact ⟨[], rfl, by simp, fun _ => rfl, [], [], rfl, by simp, by simp,
      by simp, by simp⟩
  | num n =>
    exact ⟨[], rfl, by simp, fun _ => rfl, [], [], rfl, by simp, by simp,
      by simp, by simp⟩
  | str s =>
    exact ⟨[], rfl, by simp, fun _ => rfl, [], [], rfl, by simp, by simp,
      by simp, by simp⟩
  | arr xs =>
    exact ⟨[], rfl, by simp, fun _ => rfl, [], [], rfl, by simp, by simp,
      by simp, by simp⟩

/-- Witness for C10 (amended) on a concrete safe payload: a falsy
`events` number, a missing `births` field. -/
theorem summarize_total_and_bounded_witness :
    ∃ out, summarize_onthisday (Json.obj [("events", Json.num 0)]) =
        .ok out ∧
      out.length ≤ 5 ∧
      (entryIsRecord (Json.obj [("events", Json.num 0)]) = false →
        out = []) ∧
      ∃ es bs, out = es ++ bs ∧ es.length ≤ 3 ∧ bs.length ≤ 2 ∧
        (∀ b ∈ es, ∃ y t, b = Json.obj [("kind", Json.str "event"),
          ("year", y), ("text", t)] ∧ truthy t = true) ∧
        (∀ b ∈ bs, ∃ y t, b = Json.obj [("kind", Json.str "birth"),
          ("year", y), ("text", t)] ∧ truthy t = true) :=
  summarize_total_and_bounded (Json.obj [("events", Json.num 0)]) rfl

end CatsAndBabies
